import Mathlib

/-!
Verification of the command-routing, provider-adapter and interaction-storage
logic of the voice-assistant application (`src/app.py`), as a shallow
embedding in Lean.  Python strings are modelled as Lean `String` (with the
character-level primitives `str.lower`, `str.strip`, the `in` containment
test and `str.replace(old, "")` re-implemented on `List Char`), Python
exceptions as an explicit `Except` layer with `try/except` modelled by
`pyTry`, and the S3 store as a list of keyed objects carrying a
last-modified stamp.
-/

namespace VoiceAssistant

/-- ASCII model of Python `str.lower` on one character. -/
def lowerChar (c : Char) : Char :=
  if 65 ≤ c.toNat && c.toNat ≤ 90 then Char.ofNat (c.toNat + 32) else c

/-- The whitespace characters stripped by Python `str.strip()`. -/
def isPySpace (c : Char) : Bool :=
  c == ' ' || c == '\t' || c == '\n' || c == '\r' || c == Char.ofNat 11 || c == Char.ofNat 12

/-- Python `str.strip()`: drop whitespace from both ends. -/
def stripList (l : List Char) : List Char :=
  ((l.dropWhile isPySpace).reverse.dropWhile isPySpace).reverse

/-- Python `sub in s` substring containment. -/
def hasSub : List Char → List Char → Bool
  | [], sub => sub.isPrefixOf []
  | c :: t, sub => sub.isPrefixOf (c :: t) || hasSub t sub

/-- Python `s.replace(old, "")`: delete every non-overlapping occurrence of
`old`, scanning left to right.  The fuel argument starts at the length of the
string, which always suffices. -/
def replaceDelAux (old : List Char) : Nat → List Char → List Char
  | _, [] => []
  | 0, rest => rest
  | fuel + 1, c :: cs =>
    if old.isPrefixOf (c :: cs) && !old.isEmpty then
      replaceDelAux old fuel ((c :: cs).drop old.length)
    else
      c :: replaceDelAux old fuel cs

def pyLower (s : String) : String :=
  String.mk (s.toList.map lowerChar)

def pyStrip (s : String) : String :=
  String.mk (stripList s.toList)

/-- The router's normalization `command.lower().strip()`. -/
def pyNormalize (s : String) : String :=
  pyStrip (pyLower s)

def pyContains (s sub : String) : Bool :=
  hasSub s.toList sub.toList

def pyRemove (s old : String) : String :=
  String.mk (replaceDelAux old.toList s.toList.length s.toList)

def pyStartsWith (s pre : String) : Bool :=
  pre.toList.isPrefixOf s.toList

/-- The Python exceptions that can reach an adapter's `except` clauses:
`requests.exceptions.RequestException`, `wikipedia`'s `DisambiguationError`
and `PageError`, and a catch-all for any other `Exception`. -/
inductive PyExn where
  | requestException (msg : String)
  | disambiguationError (options : List String)
  | pageError
  | exception (msg : String)
deriving Repr, DecidableEq

/-- Model of Python `str(e)` on an exception value. -/
def exnMsg : PyExn → String
  | .requestException m => m
  | .disambiguationError _ => "disambiguation"
  | .pageError => "page not found"
  | .exception m => m

/-- Python `try/except`: run `body`; if it raises an exception the handler
covers (`some`), the handler's string result is returned normally; an
uncovered exception propagates. -/
def pyTry {α : Type} (body : Except PyExn α) (handler : PyExn → Option α) : Except PyExn α :=
  match body with
  | .ok a => .ok a
  | .error e =>
    match handler e with
    | some a => .ok a
    | none => .error e

/-- The fields `get_weather` reads from the decoded JSON payload; `none`
models an absent key (formatted as `N/A` / `Unknown error` by `dict.get`
defaults). -/
structure WeatherData where
  cod : Option Int
  message : Option String
  description : Option String
  temp : Option String
  feels_like : Option String
  humidity : Option String
deriving Repr, DecidableEq

def orNA : Option String → String :=
  fun o => o.getD "N/A"

def formatWeather (city : String) (d : WeatherData) : String :=
  "Weather in " ++ city ++ ": " ++ orNA d.description ++ ". " ++
    "Temperature: " ++ orNA d.temp ++ "°C, " ++
    "feels like " ++ orNA d.feels_like ++ "°C. " ++
    "Humidity: " ++ orNA d.humidity ++ "%"

/-- Model of `get_weather(city)`.  `apiKey` models `WEATHER_API_KEY` (`none` or the
empty string are falsy); `fetch` models `requests.get(...).json()`, which
either yields the decoded payload or raises. -/
def get_weather (apiKey : Option String) (fetch : Except PyExn WeatherData)
    (city : String) : Except PyExn String :=
  if (apiKey.getD "") = "" then Except.ok "Weather API not configured"
  else
    pyTry
      (do
        let data ← fetch
        if data.cod ≠ some 200 then
          pure ("Weather error: " ++ data.message.getD "Unknown error")
        else
          pure (formatWeather city data))
      (fun e =>
        match e with
        | .requestException m => some ("Error fetching weather: " ++ m)
        | e => some ("Error processing weather data: " ++ exnMsg e))

/-- Python `', '.join l`. -/
def joinComma : List String → String
  | [] => ""
  | [s] => s
  | s :: rest => s ++ ", " ++ joinComma rest

/-- Model of `search_wikipedia(query)`: `fetch` models `wikipedia.summary(query,
sentences=2, auto_suggest=False)`, which yields the summary or raises. -/
def search_wikipedia (fetch : Except PyExn String) : Except PyExn String :=
  pyTry fetch
    (fun e =>
      match e with
      | .disambiguationError opts =>
          some ("Multiple matches. Be more specific. Options: " ++
            joinComma (opts.take 3) ++ "...")
      | .pageError => some "No information found. Try different terms."
      | e => some ("Wikipedia error: " ++ exnMsg e))

structure Track where
  name : String
  artist : String
  uri : String
deriving Repr, DecidableEq

/-- Model of `play_spotify(song_name)`: `connected` models `sp` being non-`None`;
`searchResult` models `sp.search(...)` returning a first track or nothing (or
raising); `playOutcome` models `sp.start_playback(...)`. -/
def play_spotify (connected : Bool) (searchResult : Except PyExn (Option Track))
    (playOutcome : Except PyExn Unit) : Except PyExn String :=
  if !connected then Except.ok "Spotify not connected"
  else
    pyTry
      (do
        let found ← searchResult
        match found with
        | some track => do
            let _ ← playOutcome
            pure ("Now playing: " ++ track.name ++ " by " ++ track.artist)
        | none => pure "Song not found.")
      (fun e => some ("Spotify error: " ++ exnMsg e))

/-- Model of `search_google(query)`: `action` models `pwt.search(query)`. -/
def search_google (action : Except PyExn Unit) (query : String) :
    Except PyExn String :=
  pyTry
    (do
      let _ ← action
      pure ("Searching Google for: " ++ query))
    (fun e => some ("Search error: " ++ exnMsg e))

/-- The decision `process_command` takes: either one of its literal replies,
or a delegation to one provider adapter with the derived argument. -/
inductive Route where
  | invalid
  | retry
  | greeting
  | time
  | date
  | weather (city : String)
  | wikipedia (query : String)
  | wikipediaEmpty
  | music (song : String)
  | musicEmpty
  | google (query : String)
  | googleEmpty
  | fallbackSearch (query : String)
deriving Repr, DecidableEq

/-- The city derivation of the weather rule:
`command.replace("weather", "").replace("in", "").strip()`. -/
def cityOf (command : String) : String :=
  pyStrip (pyRemove (pyRemove command "weather") "in")

/-- The query derivation of the wikipedia rule:
`command.replace("wikipedia", "").replace("wiki", "").strip()`. -/
def wikiQueryOf (command : String) : String :=
  pyStrip (pyRemove (pyRemove command "wikipedia") "wiki")

/-- The title derivation of the music rule:
`command.replace("play", "").replace("song", "").replace("music", "").strip()`. -/
def songOf (command : String) : String :=
  pyStrip (pyRemove (pyRemove (pyRemove command "play") "song") "music")

/-- The query derivation of the google rule:
`command.replace("search", "").replace("google", "").strip()`. -/
def googleQueryOf (command : String) : String :=
  pyStrip (pyRemove (pyRemove command "search") "google")

/-- The weather branch: `get_weather(city or "New York")`. -/
def weatherRoute (city : String) : Route :=
  Route.weather (if city = "" then "New York" else city)

/-- The wikipedia branch: `search_wikipedia(query) if query else "Specify a search term"`. -/
def wikiRoute (query : String) : Route :=
  if query = "" then Route.wikipediaEmpty else Route.wikipedia query

/-- The music branch: `play_spotify(song) if song else "Specify a song"`. -/
def musicRoute (song : String) : Route :=
  if song = "" then Route.musicEmpty else Route.music song

/-- The google branch: `search_google(query) if query else "Specify a search"`. -/
def googleRoute (query : String) : Route :=
  if query = "" then Route.googleEmpty else Route.google query

/-- The conditions of the router's `if`/`elif` chain, in declaration order:
0 `any(word in command for word in ["hello", "hi", "hey"])`, 1 `"time" in
command`, 2 `"date" in command`, 3 `"weather" in command`, 4 `"wikipedia" in
command or "wiki" in command`, 5 `"play" in command and ("song" in command or
"music" in command)`, 6 `"search" in command and "google" in command`, and 7
the unconditional `else` (default web search). -/
def ruleMatches (cmd : String) : Nat → Bool
  | 0 => pyContains cmd "hello" || pyContains cmd "hi" || pyContains cmd "hey"
  | 1 => pyContains cmd "time"
  | 2 => pyContains cmd "date"
  | 3 => pyContains cmd "weather"
  | 4 => pyContains cmd "wikipedia" || pyContains cmd "wiki"
  | 5 => pyContains cmd "play" && (pyContains cmd "song" || pyContains cmd "music")
  | 6 => pyContains cmd "search" && pyContains cmd "google"
  | _ => true

/-- The first rule index whose condition holds. -/
def firstRule (cmd : String) : Nat :=
  if ruleMatches cmd 0 then 0
  else if ruleMatches cmd 1 then 1
  else if ruleMatches cmd 2 then 2
  else if ruleMatches cmd 3 then 3
  else if ruleMatches cmd 4 then 4
  else if ruleMatches cmd 5 then 5
  else if ruleMatches cmd 6 then 6
  else 7

/-- The decision structure of `process_command(command)`.  `none` models a
non-string argument (`not isinstance(command, str)`); a string argument that
is falsy (empty) also fails the first guard.  The rule conditions are spelled
out by `ruleMatches`, the argument derivations by `cityOf`, `wikiQueryOf`,
`songOf` and `googleQueryOf`. -/
def route : Option String → Route
  | none => Route.invalid
  | some c0 =>
    if c0 = "" then Route.invalid
    else if pyNormalize c0 = "" then Route.retry
    else if ruleMatches (pyNormalize c0) 0 then Route.greeting
    else if ruleMatches (pyNormalize c0) 1 then Route.time
    else if ruleMatches (pyNormalize c0) 2 then Route.date
    else if ruleMatches (pyNormalize c0) 3 then weatherRoute (cityOf (pyNormalize c0))
    else if ruleMatches (pyNormalize c0) 4 then wikiRoute (wikiQueryOf (pyNormalize c0))
    else if ruleMatches (pyNormalize c0) 5 then musicRoute (songOf (pyNormalize c0))
    else if ruleMatches (pyNormalize c0) 6 then googleRoute (googleQueryOf (pyNormalize c0))
    else Route.fallbackSearch (pyNormalize c0)

/-- Which rule of the table produced a route (`none` for the validation
short-circuits that precede the table). -/
def routeIndex : Route → Option Nat
  | .invalid => none
  | .retry => none
  | .greeting => some 0
  | .time => some 1
  | .date => some 2
  | .weather _ => some 3
  | .wikipedia _ => some 4
  | .wikipediaEmpty => some 4
  | .music _ => some 5
  | .musicEmpty => some 5
  | .google _ => some 6
  | .googleEmpty => some 6
  | .fallbackSearch _ => some 7

/-- The external world `process_command` runs against: the formatted clock
strings and the outcome of each provider call. -/
structure Env where
  timeStr : String
  dateStr : String
  weatherApiKey : Option String
  weatherFetch : String → Except PyExn WeatherData
  wikiFetch : String → Except PyExn String
  spotifyConnected : Bool
  spotifySearch : String → Except PyExn (Option Track)
  spotifyPlay : String → Except PyExn Unit
  googleAction : String → Except PyExn Unit

/-- The reply `process_command` produces for each branch of its chain. -/
def dispatch (env : Env) : Route → Except PyExn String
  | .invalid => Except.ok "Please provide a valid command"
  | .retry => Except.ok "I didn't catch that. Please try again."
  | .greeting => Except.ok "Hello! How can I help?"
  | .time => Except.ok ("The time is " ++ env.timeStr)
  | .date => Except.ok ("Today is " ++ env.dateStr)
  | .weather city => get_weather env.weatherApiKey (env.weatherFetch city) city
  | .wikipedia q => search_wikipedia (env.wikiFetch q)
  | .wikipediaEmpty => Except.ok "Specify a search term"
  | .music song =>
      play_spotify env.spotifyConnected (env.spotifySearch song) (env.spotifyPlay song)
  | .musicEmpty => Except.ok "Specify a song"
  | .google q => search_google (env.googleAction q) q
  | .googleEmpty => Except.ok "Specify a search"
  | .fallbackSearch q => search_google (env.googleAction q) q

/-- Model of `process_command(command)` as a whole. -/
def process_command (env : Env) (input : Option String) : Except PyExn String :=
  dispatch env (route input)

/-- A concrete environment used to instantiate closed statements. -/
def sampleEnv : Env where
  timeStr := "12:00"
  dateStr := "January 01, 2026"
  weatherApiKey := none
  weatherFetch := fun _ => Except.error (PyExn.exception "down")
  wikiFetch := fun _ => Except.error PyExn.pageError
  spotifyConnected := false
  spotifySearch := fun _ => Except.ok none
  spotifyPlay := fun _ => Except.ok ()
  googleAction := fun _ => Except.ok ()

/-- One stored interaction record (the JSON body written to S3). -/
structure Interaction where
  timestamp : String
  input : String
  response : String
deriving Repr, DecidableEq

instance {ε α : Type} [DecidableEq ε] [DecidableEq α] : DecidableEq (Except ε α) :=
  fun a b =>
    match a, b with
    | .ok x, .ok y =>
      if h : x = y then isTrue (by rw [h]) else isFalse (by intro he; cases he; exact h rfl)
    | .error x, .error y =>
      if h : x = y then isTrue (by rw [h]) else isFalse (by intro he; cases he; exact h rfl)
    | .ok _, .error _ => isFalse (by intro he; cases he)
    | .error _, .ok _ => isFalse (by intro he; cases he)

/-- One stored S3 object: its key, its body as it will deserialize
(`Except.error` models a corrupt body), and the provider's last-modified
stamp. -/
structure S3Object where
  key : String
  body : Except String Interaction
  lastModified : Nat
deriving Repr, DecidableEq

structure S3State where
  objects : List S3Object
deriving Repr, DecidableEq

/-- Model of `save_to_s3(user_input, response)`.  `s3 = none` models a missing client,
a falsy `bucket` models a missing `S3_BUCKET_NAME`, `lm` is the last-modified
stamp the store assigns, and `putError` injects a `put_object` failure. -/
def save_to_s3 : Option S3State → Option String → String → String → String →
    Nat → Option String → Bool × Option S3State
  | none, _, _, _, _, _, _ => (false, none)
  | some st, bucket, ts, inp, resp, lm, putError =>
    if (bucket.getD "") = "" then (false, some st)
    else
      match putError with
      | some _ => (false, some st)
      | none =>
        (true, some ⟨st.objects ++
          [⟨"interactions/" ++ ts ++ ".json", Except.ok ⟨ts, inp, resp⟩, lm⟩]⟩)

/-- Insertion step of sorting by last-modified, newest first. -/
def insertDesc (x : S3Object) : List S3Object → List S3Object
  | [] => [x]
  | y :: ys =>
    if y.lastModified ≤ x.lastModified then x :: y :: ys
    else y :: insertDesc x ys

/-- Model of `sorted(..., key=lambda x: x['LastModified'], reverse=True)`. -/
def sortByLmDesc : List S3Object → List S3Object
  | [] => []
  | o :: rest => insertDesc o (sortByLmDesc rest)

/-- Model of `load_history(limit)`: list the `interactions/` keys, sort newest first,
take `limit`, deserialize each, skipping per-item failures.  `listError`
injects a `list_objects_v2` failure (the outer `except` returns `[]`). -/
def load_history : Option S3State → Option String → Bool → Nat → List Interaction
  | none, _, _, _ => []
  | some st, bucket, listError, limit =>
    if (bucket.getD "") = "" then []
    else if listError then []
    else
      ((sortByLmDesc (st.objects.filter
          (fun o => pyStartsWith o.key "interactions/"))).take limit).filterMap
        (fun o => o.body.toOption)

/-! ## Helper lemmas -/

theorem pyTry_ok {α : Type} (body : Except PyExn α) (handler : PyExn → Option α)
    (h : ∀ e, (handler e).isSome = true) :
    ∃ a, pyTry body handler = Except.ok a := by
  cases body with
  | ok a => exact ⟨a, rfl⟩
  | error e =>
    cases hh : handler e with
    | none => exact absurd (h e) (by simp [hh])
    | some a => exact ⟨a, by simp [pyTry, hh]⟩

theorem get_weather_ok (apiKey : Option String) (fetch : Except PyExn WeatherData)
    (city : String) : ∃ s, get_weather apiKey fetch city = Except.ok s := by
  unfold get_weather
  split
  · exact ⟨_, rfl⟩
  · exact pyTry_ok _ _ (fun e => by cases e <;> rfl)

theorem search_wikipedia_ok (fetch : Except PyExn String) :
    ∃ s, search_wikipedia fetch = Except.ok s :=
  pyTry_ok _ _ (fun e => by cases e <;> rfl)

theorem play_spotify_ok (connected : Bool) (searchResult : Except PyExn (Option Track))
    (playOutcome : Except PyExn Unit) :
    ∃ s, play_spotify connected searchResult playOutcome = Except.ok s := by
  unfold play_spotify
  split
  · exact ⟨_, rfl⟩
  · exact pyTry_ok _ _ (fun e => by cases e <;> rfl)

theorem search_google_ok (action : Except PyExn Unit) (query : String) :
    ∃ s, search_google action query = Except.ok s :=
  pyTry_ok _ _ (fun e => by cases e <;> rfl)

theorem dispatch_ok (env : Env) (r : Route) : ∃ s, dispatch env r = Except.ok s := by
  cases r <;>
    first
    | exact ⟨_, rfl⟩
    | exact get_weather_ok _ _ _
    | exact search_wikipedia_ok _
    | exact play_spotify_ok _ _ _
    | exact search_google_ok _ _

theorem lowerChar_of_space {c : Char} (h : isPySpace c = true) : lowerChar c = c := by
  simp only [isPySpace, Bool.or_eq_true, beq_iff_eq] at h
  rcases h with (((((h | h) | h) | h) | h) | h) <;> subst h <;> decide

theorem stripList_eq_nil {l : List Char} (h : ∀ c ∈ l, isPySpace c = true) :
    stripList l = [] := by
  have h1 : l.dropWhile isPySpace = [] := List.dropWhile_eq_nil_iff.mpr h
  unfold stripList
  rw [h1]
  rfl

theorem whitespace_normalize {c : String} (h : ∀ ch ∈ c.toList, isPySpace ch = true) :
    pyNormalize c = "" := by
  have h2 : ∀ ch ∈ c.toList.map lowerChar, isPySpace ch = true := by
    intro ch hch
    obtain ⟨a, ha, rfl⟩ := List.mem_map.mp hch
    rw [lowerChar_of_space (h a ha)]
    exact h a ha
  show String.mk (stripList (c.toList.map lowerChar)) = ""
  rw [stripList_eq_nil h2]

theorem hasSub_iff {s sub : List Char} : hasSub s sub = true ↔ sub <:+: s := by
  induction s with
  | nil => simp [hasSub, List.isPrefixOf_iff_prefix]
  | cons c t ih => simp [hasSub, List.isPrefixOf_iff_prefix, ih, List.infix_cons_iff]

theorem dropWhile_keeps {p : Char → Bool} {pat l : List Char} (hne : pat ≠ [])
    (hh : p (pat.head hne) = false) (hinf : pat <:+: l) :
    pat <:+: l.dropWhile p := by
  obtain ⟨a, b, hl⟩ := hinf
  subst hl
  induction a with
  | nil =>
    cases pat with
    | nil => exact absurd rfl hne
    | cons x xs =>
      simp only [List.head_cons] at hh
      rw [List.nil_append, List.cons_append, List.dropWhile_cons, if_neg (by simp [hh])]
      exact ⟨[], b, by simp⟩
  | cons y a2 ih =>
    by_cases hy : p y = true
    · rw [List.cons_append, List.cons_append, List.dropWhile_cons, if_pos hy]
      exact ih
    · rw [List.cons_append, List.cons_append, List.dropWhile_cons, if_neg hy]
      exact ⟨y :: a2, b, by simp⟩

theorem stripList_keeps {pat l : List Char} (hne : pat ≠ [])
    (hh : isPySpace (pat.head hne) = false)
    (hl : isPySpace (pat.getLast hne) = false)
    (hinf : pat <:+: l) : pat <:+: stripList l := by
  have s1 : pat <:+: l.dropWhile isPySpace := dropWhile_keeps hne hh hinf
  have hner : pat.reverse ≠ [] := by simpa using hne
  have hhr : isPySpace (pat.reverse.head hner) = false := by
    rw [List.head_reverse]
    exact hl
  have s2 : pat.reverse <:+: (l.dropWhile isPySpace).reverse :=
    List.reverse_infix.mpr s1
  have s3 : pat.reverse <:+: ((l.dropWhile isPySpace).reverse.dropWhile isPySpace) :=
    dropWhile_keeps hner hhr s2
  have s4 := List.reverse_infix.mpr s3
  rw [List.reverse_reverse] at s4
  exact s4

theorem contains_normalize {c pat : String} (hne : pat.toList ≠ [])
    (hh : isPySpace (pat.toList.head hne) = false)
    (hl : isPySpace (pat.toList.getLast hne) = false)
    (h : pyContains (pyLower c) pat = true) :
    pyContains (pyNormalize c) pat = true := by
  have hinf : pat.toList <:+: (pyLower c).toList := hasSub_iff.mp h
  have h2 : pat.toList <:+: stripList ((pyLower c).toList) :=
    stripList_keeps hne hh hl hinf
  exact hasSub_iff.mpr h2

theorem normalize_ne_empty_of_contains {c pat : String} (hpat : pat.toList ≠ [])
    (h : pyContains (pyNormalize c) pat = true) : pyNormalize c ≠ "" := by
  intro he
  rw [he] at h
  have h2 : pat.toList <:+: ("" : String).toList := hasSub_iff.mp h
  have h3 : ("" : String).toList = ([] : List Char) := rfl
  rw [h3, List.infix_nil] at h2
  exact hpat h2

theorem routeIndex_weatherRoute (city : String) :
    routeIndex (weatherRoute city) = some 3 := rfl

theorem routeIndex_wikiRoute (q : String) : routeIndex (wikiRoute q) = some 4 := by
  unfold wikiRoute
  split <;> rfl

theorem routeIndex_musicRoute (s : String) : routeIndex (musicRoute s) = some 5 := by
  unfold musicRoute
  split <;> rfl

theorem routeIndex_googleRoute (q : String) : routeIndex (googleRoute q) = some 6 := by
  unfold googleRoute
  split <;> rfl

theorem routeIndex_firstRule (c : String) (h : pyNormalize c ≠ "") :
    routeIndex (route (some c)) = some (firstRule (pyNormalize c)) := by
  have hc : c ≠ "" := fun hce => h (by rw [hce]; rfl)
  simp only [route]
  unfold firstRule
  rw [if_neg hc, if_neg h]
  split_ifs with h0 h1 h2 h3 h4 h5 h6
  · rfl
  · rfl
  · rfl
  · exact routeIndex_weatherRoute _
  · exact routeIndex_wikiRoute _
  · exact routeIndex_musicRoute _
  · exact routeIndex_googleRoute _
  · rfl

theorem firstRule_matches (cmd : String) : ruleMatches cmd (firstRule cmd) = true := by
  unfold firstRule
  split_ifs with h0 h1 h2 h3 h4 h5 h6 <;> first | assumption | rfl

theorem firstRule_least (cmd : String) (j : Nat) (hj : j < firstRule cmd) :
    ruleMatches cmd j = false := by
  unfold firstRule at hj
  split_ifs at hj with h0 h1 h2 h3 h4 h5 h6 <;>
    (interval_cases j <;> simp_all)

theorem startsWith_interactions (ts : String) :
    pyStartsWith ("interactions/" ++ ts ++ ".json") "interactions/" = true := by
  simp [pyStartsWith, String.toList, List.isPrefixOf_iff_prefix, List.append_assoc]

theorem sortByLmDesc_append_max (l : List S3Object) (x : S3Object)
    (h : ∀ y ∈ l, y.lastModified < x.lastModified) :
    ∃ rest, sortByLmDesc (l ++ [x]) = x :: rest := by
  induction l with
  | nil => exact ⟨[], rfl⟩
  | cons o t ih =>
    obtain ⟨rest, hrest⟩ := ih (fun y hy => h y (List.mem_cons_of_mem o hy))
    have ho : o.lastModified < x.lastModified := h o (List.mem_cons_self o t)
    refine ⟨insertDesc o rest, ?_⟩
    show insertDesc o (sortByLmDesc (t ++ [x])) = x :: insertDesc o rest
    rw [hrest]
    show (if x.lastModified ≤ o.lastModified then o :: x :: rest
      else x :: insertDesc o rest) = x :: insertDesc o rest
    rw [if_neg (by omega)]

/-! ## Claims -/

/-- Claim C1: the command router evaluates its rules as an ordered table where
the first matching rule wins in declaration order: for every input whose
normalization is non-empty, the rule that handles it is `firstRule`, the
least-indexed matching rule (it matches, and every earlier rule fails to
match); in particular `"weather music play"` matches both the weather rule
(3) and the play-music rule (5) and is routed to the weather adapter with
city argument `"music play"`, not to the music adapter. -/
theorem c1_first_match_wins :
    (∀ c : String, pyNormalize c ≠ "" →
      routeIndex (route (some c)) = some (firstRule (pyNormalize c)) ∧
      ruleMatches (pyNormalize c) (firstRule (pyNormalize c)) = true ∧
      (∀ j, j < firstRule (pyNormalize c) → ruleMatches (pyNormalize c) j = false)) ∧
    ruleMatches (pyNormalize "weather music play") 3 = true ∧
    ruleMatches (pyNormalize "weather music play") 5 = true ∧
    route (some "weather music play") = Route.weather "music play" := by
  refine ⟨fun c h => ⟨routeIndex_firstRule c h, firstRule_matches _,
    fun j hj => firstRule_least _ j hj⟩, by decide, by decide, by decide⟩

/-- Witness for C1 at the input `"weather music play"`. -/
theorem c1_first_match_wins_witness :
    routeIndex (route (some "weather music play")) = some 3 := by
  have h := c1_first_match_wins.1 "weather music play" (by decide)
  have h3 : firstRule (pyNormalize "weather music play") = 3 := by decide
  rw [h3] at h
  exact h.1

/-- Claim C2, counterexample: the claim says the empty input and every
whitespace-only input yield one and the same fixed retry message; in the
code the empty input takes the `not command` branch and yields
`"Please provide a valid command"`, while the whitespace-only input `" "`
yields `"I didn't catch that. Please try again."` — two different strings. -/
theorem c2_counterexample :
    process_command sampleEnv (some "") = Except.ok "Please provide a valid command" ∧
    process_command sampleEnv (some " ") =
      Except.ok "I didn't catch that. Please try again." ∧
    process_command sampleEnv (some "") ≠ process_command sampleEnv (some " ") := by
  exact ⟨by decide, by decide, by decide⟩

/-- Claim C2, amended: every whitespace-only but *non-empty* input is routed
to the retry branch (no adapter is invoked) and yields the fixed message
`"I didn't catch that. Please try again."`; the empty input instead yields
the distinct validation message `"Please provide a valid command"`, also
without invoking any adapter. -/
theorem c2_whitespace_retry :
    ∀ (env : Env) (c : String), c ≠ "" → (∀ ch ∈ c.toList, isPySpace ch = true) →
      route (some c) = Route.retry ∧
      process_command env (some c) =
        Except.ok "I didn't catch that. Please try again." ∧
      route (some "") = Route.invalid ∧
      process_command env (some "") = Except.ok "Please provide a valid command" := by
  intro env c hc hsp
  have hn : pyNormalize c = "" := whitespace_normalize hsp
  have hroute : route (some c) = Route.retry := by
    simp only [route]
    rw [if_neg hc, if_pos hn]
  refine ⟨hroute, ?_, rfl, rfl⟩
  unfold process_command
  rw [hroute]
  rfl

/-- Witness for C2 (amended) at the one-space input. -/
theorem c2_whitespace_retry_witness :
    route (some " ") = Route.retry ∧
    process_command sampleEnv (some " ") =
      Except.ok "I didn't catch that. Please try again." := by
  have h := c2_whitespace_retry sampleEnv " " (by decide) (by decide)
  exact ⟨h.1, h.2.1⟩

/-- Claim C3, counterexample: for the input `"weather in Paris"` the router
lowercases the command first, so the derived city argument is `"paris"`,
not exactly `"Paris"` as the claim states. -/
theorem c3_counterexample :
    route (some "weather in Paris") = Route.weather "paris" ∧
    ("paris" : String) ≠ "Paris" := by
  exact ⟨by decide, by decide⟩

/-- Claim C3, amended: for the input `"weather in Paris"` the derived city
argument passed to the weather adapter is `"paris"` (the router lowercases
the whole command before extraction); for the input `"weather"` alone the
derived city argument is the default `"New York"`. -/
theorem c3_city_derivation :
    route (some "weather in Paris") = Route.weather "paris" ∧
    route (some "weather") = Route.weather "New York" ∧
    (∀ env : Env, process_command env (some "weather") =
      get_weather env.weatherApiKey (env.weatherFetch "New York") "New York") ∧
    (∀ env : Env, process_command env (some "weather in Paris") =
      get_weather env.weatherApiKey (env.weatherFetch "paris") "paris") := by
  refine ⟨by decide, by decide, ?_, ?_⟩
  · intro env
    have h : route (some "weather") = Route.weather "New York" := by decide
    unfold process_command
    rw [h]
    rfl
  · intro env
    have h : route (some "weather in Paris") = Route.weather "paris" := by decide
    unfold process_command
    rw [h]
    rfl

/-- Claim C4: for every input (including non-strings) and every environment of
provider-call outcomes, `process_command` returns `Except.ok` with some
string — no adapter call propagates an exception through its boundary:
each adapter's `except` chain covers every exception, and the
configuration-absent short-circuits return fixed strings. -/
theorem c4_adapters_never_raise :
    (∀ (env : Env) (input : Option String), ∃ s,
      process_command env input = Except.ok s) ∧
    (∀ (fetch : Except PyExn WeatherData) (city : String),
      get_weather none fetch city = Except.ok "Weather API not configured") ∧
    (∀ (m city : String),
      get_weather (some "key") (Except.error (PyExn.requestException m)) city =
        Except.ok ("Error fetching weather: " ++ m)) ∧
    (∀ (m city : String),
      get_weather (some "key") (Except.error (PyExn.exception m)) city =
        Except.ok ("Error processing weather data: " ++ m)) ∧
    (∀ fetch, ∃ s, search_wikipedia fetch = Except.ok s) ∧
    (∀ connected searchResult playOutcome, ∃ s,
      play_spotify connected searchResult playOutcome = Except.ok s) ∧
    (∀ action query, ∃ s, search_google action query = Except.ok s) := by
  refine ⟨?_, ?_, ?_, ?_, search_wikipedia_ok, play_spotify_ok, search_google_ok⟩
  · intro env input
    exact dispatch_ok env (route input)
  · intro fetch city
    rfl
  · intro m city
    unfold get_weather
    rw [if_neg (by decide)]
    rfl
  · intro m city
    unfold get_weather
    rw [if_neg (by decide)]
    rfl

/-- Claim C5: on a disambiguation error the encyclopedia adapter formats
`e.options[:3]`: the returned string embeds exactly the first
`min 3 (length options)` candidates, hence never more than 3, however many
options the provider reports. -/
theorem c5_disambiguation_capped :
    ∀ opts : List String,
      search_wikipedia (Except.error (PyExn.disambiguationError opts)) =
        Except.ok ("Multiple matches. Be more specific. Options: " ++
          joinComma (opts.take 3) ++ "...") ∧
      (opts.take 3).length ≤ 3 := by
  intro opts
  exact ⟨rfl, List.length_take_le 3 opts⟩

/-- Claim C6: when storage is available (client and bucket configured) and the
store's last-modified stamps are monotone (the new write is strictly newest),
a successful `record` followed by `recent(1)` returns exactly the
just-written interaction; when storage is unavailable, `recent` returns the
empty sequence. -/
theorem c6_record_then_recent :
    (∀ (st : S3State) (bucket ts inp resp : String) (lm : Nat),
      bucket ≠ "" →
      (∀ o ∈ st.objects, o.lastModified < lm) →
      (save_to_s3 (some st) (some bucket) ts inp resp lm none).1 = true ∧
      load_history (save_to_s3 (some st) (some bucket) ts inp resp lm none).2
        (some bucket) false 1 = [⟨ts, inp, resp⟩]) ∧
    (∀ (bucket : Option String) (listError : Bool) (limit : Nat),
      load_history none bucket listError limit = []) := by
  constructor
  · intro st bucket ts inp resp lm hb h
    have hb2 : ((some bucket).getD "") ≠ "" := hb
    have hsave : save_to_s3 (some st) (some bucket) ts inp resp lm none =
        (true, some ⟨st.objects ++
          [⟨"interactions/" ++ ts ++ ".json", Except.ok ⟨ts, inp, resp⟩, lm⟩]⟩) := by
      simp only [save_to_s3]
      rw [if_neg hb2]
    refine ⟨by rw [hsave], ?_⟩
    rw [hsave]
    show load_history (some ⟨st.objects ++
        [⟨"interactions/" ++ ts ++ ".json", Except.ok ⟨ts, inp, resp⟩, lm⟩]⟩)
      (some bucket) false 1 = [⟨ts, inp, resp⟩]
    simp only [load_history]
    rw [if_neg hb2, if_neg (by decide)]
    rw [List.filter_append]
    have hkey : (List.filter (fun o => pyStartsWith o.key "interactions/")
        [⟨"interactions/" ++ ts ++ ".json", Except.ok ⟨ts, inp, resp⟩, lm⟩] :
        List S3Object) =
        [⟨"interactions/" ++ ts ++ ".json", Except.ok ⟨ts, inp, resp⟩, lm⟩] := by
      simp [startsWith_interactions]
    rw [hkey]
    obtain ⟨rest, hrest⟩ := sortByLmDesc_append_max
      (st.objects.filter (fun o => pyStartsWith o.key "interactions/"))
      ⟨"interactions/" ++ ts ++ ".json", Except.ok ⟨ts, inp, resp⟩, lm⟩
      (fun y hy => h y (List.mem_filter.mp hy).1)
    rw [hrest]
    rfl
  · intro bucket listError limit
    rfl

/-- Witness for C6 starting from the empty store. -/
theorem c6_record_then_recent_witness :
    (save_to_s3 (some ⟨[]⟩) (some "bkt") "t1" "hi there" "resp" 5 none).1 = true ∧
    load_history (save_to_s3 (some ⟨[]⟩) (some "bkt") "t1" "hi there" "resp" 5 none).2
      (some "bkt") false 1 = [⟨"t1", "hi there", "resp"⟩] :=
  c6_record_then_recent.1 ⟨[]⟩ "bkt" "t1" "hi there" "resp" 5 (by decide) (by simp)

/-- Claim C7: the recorder `save_to_s3` returns whether the write succeeded, never raising:
with no client it returns `false`; with a falsy bucket it returns `false`
leaving the store unchanged; with an injected write error it returns `false`
leaving the store unchanged; on success it returns `true` having appended
exactly one object keyed `interactions/<timestamp>.json` whose body is the
`{timestamp, input, response}` triple. -/
theorem c7_record_result :
    (∀ (bucket : Option String) (ts inp resp : String) (lm : Nat)
      (err : Option String),
      save_to_s3 none bucket ts inp resp lm err = (false, none)) ∧
    (∀ (st : S3State) (bucket : Option String) (ts inp resp : String) (lm : Nat)
      (err : Option String), (bucket.getD "") = "" →
      save_to_s3 (some st) bucket ts inp resp lm err = (false, some st)) ∧
    (∀ (st : S3State) (bucket : Option String) (ts inp resp e : String) (lm : Nat),
      (bucket.getD "") ≠ "" →
      save_to_s3 (some st) bucket ts inp resp lm (some e) = (false, some st)) ∧
    (∀ (st : S3State) (bucket : Option String) (ts inp resp : String) (lm : Nat),
      (bucket.getD "") ≠ "" →
      save_to_s3 (some st) bucket ts inp resp lm none =
        (true, some ⟨st.objects ++
          [⟨"interactions/" ++ ts ++ ".json", Except.ok ⟨ts, inp, resp⟩, lm⟩]⟩)) := by
  refine ⟨fun bucket ts inp resp lm err => rfl, ?_, ?_, ?_⟩
  · intro st bucket ts inp resp lm err hb
    simp only [save_to_s3]
    rw [if_pos hb]
  · intro st bucket ts inp resp e lm hb
    simp only [save_to_s3]
    rw [if_neg hb]
  · intro st bucket ts inp resp lm hb
    simp only [save_to_s3]
    rw [if_neg hb]

/-- Witness for C7: a failing write (no client; injected error) and a
succeeding write at concrete arguments. -/
theorem c7_record_result_witness :
    save_to_s3 none (some "bkt") "t1" "in" "out" 3 none = (false, none) ∧
    save_to_s3 (some ⟨[]⟩) (some "") "t1" "in" "out" 3 none = (false, some ⟨[]⟩) ∧
    save_to_s3 (some ⟨[]⟩) (some "bkt") "t1" "in" "out" 3 (some "boom") =
      (false, some ⟨[]⟩) ∧
    save_to_s3 (some ⟨[]⟩) (some "bkt") "t1" "in" "out" 3 none =
      (true, some ⟨[⟨"interactions/" ++ "t1" ++ ".json",
        Except.ok ⟨"t1", "in", "out"⟩, 3⟩]⟩) :=
  ⟨c7_record_result.1 (some "bkt") "t1" "in" "out" 3 none,
    c7_record_result.2.1 ⟨[]⟩ (some "") "t1" "in" "out" 3 none (by decide),
    c7_record_result.2.2.1 ⟨[]⟩ (some "bkt") "t1" "in" "out" "boom" 3 (by decide),
    c7_record_result.2.2.2 ⟨[]⟩ (some "bkt") "t1" "in" "out" 3 (by decide)⟩

/-- Claim C8: greeting matching is raw substring containment: any input whose
lowercased text contains `"hi"` or `"hey"` anywhere — also inside another
word — is answered with the fixed greeting, and no later rule (time, date,
weather, …) is ever reached. -/
theorem c8_greeting_substring :
    ∀ (c : String) (env : Env),
      (pyContains (pyLower c) "hi" || pyContains (pyLower c) "hey") = true →
      route (some c) = Route.greeting ∧
      process_command env (some c) = Except.ok "Hello! How can I help?" := by
  intro c env h
  have hhi : pyContains (pyNormalize c) "hi" = true ∨
      pyContains (pyNormalize c) "hey" = true := by
    rcases Bool.or_eq_true _ _ |>.mp h with h1 | h1
    · exact Or.inl (contains_normalize (by decide) (by decide) (by decide) h1)
    · exact Or.inr (contains_normalize (by decide) (by decide) (by decide) h1)
  have hrule : ruleMatches (pyNormalize c) 0 = true := by
    rcases hhi with h1 | h1 <;> simp [ruleMatches, h1]
  have hnorm : pyNormalize c ≠ "" := by
    rcases hhi with h1 | h1
    · exact normalize_ne_empty_of_contains (by decide) h1
    · exact normalize_ne_empty_of_contains (by decide) h1
  have hc : c ≠ "" := fun hce => hnorm (by rw [hce]; decide)
  have hroute : route (some c) = Route.greeting := by
    simp only [route]
    rw [if_neg hc, if_neg hnorm, if_pos hrule]
  refine ⟨hroute, ?_⟩
  unfold process_command
  rw [hroute]
  rfl

/-- Witness for C8: the input `"this is the time"` contains `"hi"` inside `"this"` and
also contains `"time"`, yet is answered with the greeting. -/
theorem c8_greeting_substring_witness :
    route (some "this is the time") = Route.greeting ∧
    process_command sampleEnv (some "this is the time") =
      Except.ok "Hello! How can I help?" :=
  c8_greeting_substring "this is the time" sampleEnv (by decide)

/-- Claim C9: the weather city extractor deletes every occurrence of the
substrings `"weather"` and `"in"` (not whole words): for the input
`"weather in berlin"` the derived city argument is `"berl"`, not
`"berlin"`. -/
theorem c9_city_mangled :
    cityOf (pyNormalize "weather in berlin") = "berl" ∧
    route (some "weather in berlin") = Route.weather "berl" ∧
    ("berl" : String) ≠ "berlin" := by
  exact ⟨by decide, by decide, by decide⟩

/-- Claim C10: a non-string input (modelled `none`) or a falsy string (the
empty string) short-circuits to the fixed string
`"Please provide a valid command"` before any normalization or adapter call,
and this message is distinct from the whitespace-only retry message. -/
theorem c10_invalid_input :
    ∀ env : Env,
      process_command env none = Except.ok "Please provide a valid command" ∧
      process_command env (some "") = Except.ok "Please provide a valid command" ∧
      route none = Route.invalid ∧
      route (some "") = Route.invalid ∧
      ("Please provide a valid command" : String) ≠
        "I didn't catch that. Please try again." := by
  intro env
  have h : route (some "") = Route.invalid := by decide
  refine ⟨rfl, ?_, rfl, h, by decide⟩
  unfold process_command
  rw [h]
  rfl

end VoiceAssistant
